import Mathlib

/-!
Shallow embedding of the `PlayerController` input-handling core of the
enari-engine repository (`PlayerController` over the abstract generic
`Controller`), together with theorems settling the specification claims.

The controller's own logic (input-state tracking, per-frame resolution,
action gating, key mapping) is translated directly from the source.
Collaborator pieces that the repository keeps outside this core
(`Core/Vector`'s `normalize`, the `Player` capability interface, the
`HitscanResult` payload, and the platform's key-event delivery) are not in
the provided sources and are modelled from the specification where noted.

Interactions with the controlled pawn are recorded as an explicit trace of
`PawnCall` events, so that "at most one move command per frame" and similar
claims become statements about the trace produced by one `update` call.
-/

/-- A 3-component vector with real coordinates, embedding `Vector3D` from
`Core/Vector`. Exact real arithmetic stands in for the source's
floating-point numbers. -/
structure Vector3D where
  x : ℝ
  y : ℝ
  z : ℝ

/-- Modelled from the spec: `Core/Vector` is not among the provided sources.
The Euclidean magnitude of a vector. -/
noncomputable def Vector3D.length (v : Vector3D) : ℝ :=
  Real.sqrt (v.x ^ 2 + v.y ^ 2 + v.z ^ 2)

/-- Modelled from the spec: `Core/Vector` is not among the provided sources.
`normalize` scales a non-zero vector to unit length by dividing each
component by the Euclidean magnitude ("normalize it to unit length"). -/
noncomputable def Vector3D.normalize (v : Vector3D) : Vector3D :=
  ⟨v.x / v.length, v.y / v.length, v.z / v.length⟩

/-- Modelled from the spec: the outcome of an instantaneous ranged-attack
resolution ("what was hit, if anything"); its internals are irrelevant to
the controller, which only passes it through. -/
structure HitscanResult where
  hitSomething : Bool

deriving instance DecidableEq for HitscanResult

/-- Modelled from the spec: the entity capability interface the controller
consumes (spec §6): `isOnGround`, `canJump`, `canShoot` predicates and the
result `shoot` would return. The controller treats these as givens. -/
structure Player where
  isOnGround : Bool
  canJump : Bool
  canShoot : Bool
  shootResult : Option HitscanResult

/-- The state of all relevant player inputs (`PlayerInputState`). -/
structure PlayerInputState where
  forward : Bool
  backward : Bool
  left : Bool
  right : Bool
  jump : Bool
  shoot : Bool

deriving instance DecidableEq for PlayerInputState

/-- The input state the controller is constructed with: all flags false. -/
def initialInputState : PlayerInputState :=
  ⟨false, false, false, false, false, false⟩

/-- One interaction of the controller with the controlled pawn: a query of
one of its predicates, or a command (`move`, `jump`, `shoot`). -/
inductive PawnCall where
  | isOnGroundQ : PawnCall
  | canJumpQ : PawnCall
  | jumpCmd : PawnCall
  | canShootQ : PawnCall
  | shootCmd : PawnCall
  | move (dir : Vector3D) (speed : ℝ) (dt : ℝ) : PawnCall

/-- Whether a pawn interaction is a move command. -/
def PawnCall.isMove : PawnCall → Bool
  | .move _ _ _ => true
  | _ => false

/-- Whether a pawn interaction is a query of the jump-eligibility
predicate; the controller queries it exactly once per jump attempt. -/
def PawnCall.isCanJumpQ : PawnCall → Bool
  | .canJumpQ => true
  | _ => false

/-- Whether a pawn interaction is a jump command. -/
def PawnCall.isJumpCmd : PawnCall → Bool
  | .jumpCmd => true
  | _ => false

/-- Whether a pawn interaction is a query of the shoot-eligibility
predicate; the controller queries it exactly once per shoot attempt. -/
def PawnCall.isCanShootQ : PawnCall → Bool
  | .canShootQ => true
  | _ => false

/-- Whether a pawn interaction is a shoot command. -/
def PawnCall.isShootCmd : PawnCall → Bool
  | .shootCmd => true
  | _ => false

/-- The controller's numeric configuration: its public `moveSpeed` and
`airControlModifier` fields. -/
structure PlayerController where
  moveSpeed : ℝ
  airControlModifier : ℝ

/-- The field initializers from the source: `moveSpeed = 5.0`,
`airControlModifier = 0.5`. -/
noncomputable def defaultPlayerController : PlayerController :=
  ⟨5.0, 0.5⟩

namespace PlayerController

/-- The direction accumulator built at the top of `handleMovement`:
starting from `(0, 0, 0)`, each held directional flag adds or subtracts 1
on its axis, in the source's statement order (forward, backward, right,
left). -/
def moveDirection (s : PlayerInputState) : Vector3D :=
  let d0 : Vector3D := ⟨0, 0, 0⟩
  let d1 := if s.forward then { d0 with z := d0.z + 1 } else d0
  let d2 := if s.backward then { d1 with z := d1.z - 1 } else d1
  let d3 := if s.right then { d2 with x := d2.x + 1 } else d2
  let d4 := if s.left then { d3 with x := d3.x - 1 } else d3
  d4

/-- `handleMovement(dt)`: if the accumulated direction has a non-zero x or
z component, normalize it, query `isOnGround` to pick the effective speed
(base speed when grounded, base speed times the air-control modifier when
airborne), and issue one move command; otherwise interact with the pawn
not at all. Returns the trace of pawn interactions. -/
noncomputable def handleMovement (c : PlayerController) (pawn : Player)
    (s : PlayerInputState) (dt : ℝ) : List PawnCall :=
  if (moveDirection s).x ≠ 0 ∨ (moveDirection s).z ≠ 0 then
    [PawnCall.isOnGroundQ,
     PawnCall.move (moveDirection s).normalize
       (if pawn.isOnGround then c.moveSpeed
        else c.moveSpeed * c.airControlModifier) dt]
  else []

/-- `jump()`: query `canJump`; if eligible, command the jump and return
true, else return false. Returns the result with the interaction trace. -/
def jump (pawn : Player) : Bool × List PawnCall :=
  if pawn.canJump then (true, [PawnCall.canJumpQ, PawnCall.jumpCmd])
  else (false, [PawnCall.canJumpQ])

/-- `shoot()`: query `canShoot`; if eligible, command the shot and return
its result, else return `undefined` (`none`). Returns the result with the
interaction trace. -/
def shoot (pawn : Player) : Option HitscanResult × List PawnCall :=
  if pawn.canShoot then (pawn.shootResult, [PawnCall.canShootQ, PawnCall.shootCmd])
  else (none, [PawnCall.canShootQ])

/-- `handleActions()`: if the jump flag is held, run the jump attempt; if
the shoot flag is held, run the shoot attempt; in that order. -/
def handleActions (pawn : Player) (s : PlayerInputState) : List PawnCall :=
  (if s.jump then (jump pawn).2 else []) ++
  (if s.shoot then (shoot pawn).2 else [])

/-- `update(dt)`: run `handleMovement(dt)` then `handleActions()`. The
source mutates no controller state here, so the returned input state is
the one passed in; the trace is the concatenation of the two phases. -/
noncomputable def update (c : PlayerController) (pawn : Player)
    (s : PlayerInputState) (dt : ℝ) : PlayerInputState × List PawnCall :=
  (s, handleMovement c pawn s dt ++ handleActions pawn s)

/-- Manual-override setter: `moveForward()` sets the forward flag true. -/
def moveForward (s : PlayerInputState) : PlayerInputState :=
  { s with forward := true }

/-- Manual-override setter: `moveBackward()` sets the backward flag true. -/
def moveBackward (s : PlayerInputState) : PlayerInputState :=
  { s with backward := true }

/-- Manual-override setter: `moveLeft()` sets the left flag true. -/
def moveLeft (s : PlayerInputState) : PlayerInputState :=
  { s with left := true }

/-- Manual-override setter: `moveRight()` sets the right flag true. -/
def moveRight (s : PlayerInputState) : PlayerInputState :=
  { s with right := true }

/-- `onKeyDown`: the switch on `event.code` setting the flag bound to the
key code, leaving the state unchanged on an unrecognized code. -/
def onKeyDown (code : String) (s : PlayerInputState) : PlayerInputState :=
  if code = "KeyW" ∨ code = "ArrowUp" then { s with forward := true }
  else if code = "KeyS" ∨ code = "ArrowDown" then { s with backward := true }
  else if code = "KeyA" ∨ code = "ArrowLeft" then { s with left := true }
  else if code = "KeyD" ∨ code = "ArrowRight" then { s with right := true }
  else if code = "Space" then { s with jump := true }
  else if code = "Mouse0" ∨ code = "Enter" then { s with shoot := true }
  else s

/-- `onKeyUp`: the switch on `event.code` clearing the flag bound to the
key code, leaving the state unchanged on an unrecognized code. -/
def onKeyUp (code : String) (s : PlayerInputState) : PlayerInputState :=
  if code = "KeyW" ∨ code = "ArrowUp" then { s with forward := false }
  else if code = "KeyS" ∨ code = "ArrowDown" then { s with backward := false }
  else if code = "KeyA" ∨ code = "ArrowLeft" then { s with left := false }
  else if code = "KeyD" ∨ code = "ArrowRight" then { s with right := false }
  else if code = "Space" then { s with jump := false }
  else if code = "Mouse0" ∨ code = "Enter" then { s with shoot := false }
  else s

/-- The key codes recognized by the two switches. -/
def recognizedKeyCodes : List String :=
  ["KeyW", "ArrowUp", "KeyS", "ArrowDown", "KeyA", "ArrowLeft",
   "KeyD", "ArrowRight", "Space", "Mouse0", "Enter"]

end PlayerController

/-- The controller's observable lifecycle state: its input state plus
whether its key handlers are currently subscribed to the window's
key-event notifications (`startListening` makes them subscribed at
construction, `stopListening` detaches them). -/
structure ControllerState where
  input : PlayerInputState
  listening : Bool

namespace ControllerState

/-- `stopListening()`: detach both key handlers from the window. -/
def stopListening (st : ControllerState) : ControllerState :=
  { st with listening := false }

/-- `destroy()`: calls `stopListening()`. -/
def destroy (st : ControllerState) : ControllerState :=
  st.stopListening

/-- Modelled from the spec: the platform's input-event delivery is not part
of the repository. A key-down event reaches `onKeyDown` only while the
handlers are subscribed; once detached, the event leaves the controller
untouched. -/
def deliverKeyDown (code : String) (st : ControllerState) : ControllerState :=
  if st.listening then { st with input := PlayerController.onKeyDown code st.input }
  else st

/-- Modelled from the spec: same as `deliverKeyDown`, for key-up events. -/
def deliverKeyUp (code : String) (st : ControllerState) : ControllerState :=
  if st.listening then { st with input := PlayerController.onKeyUp code st.input }
  else st

end ControllerState

/-- Spec-side formula for one axis of the direction accumulator, following
the specification's words: "+1 to the axis if the positive-direction key is
held, −1 if the negative-direction key is held", summed. Used to compare
the source's sequential accumulation against the spec. -/
def specAxisContribution (pos neg : Bool) : ℝ :=
  (if pos then 1 else 0) + (if neg then -1 else 0)

/-! ## Helper lemmas -/

/-- The squared Euclidean magnitude is the sum of squared components. -/
lemma Vector3D.sq_length (v : Vector3D) :
    v.length ^ 2 = v.x ^ 2 + v.y ^ 2 + v.z ^ 2 :=
  Real.sq_sqrt (by positivity)

/-- A vector with a non-zero x or z component has non-zero magnitude. -/
lemma Vector3D.length_ne_zero_of_comp (v : Vector3D)
    (h : v.x ≠ 0 ∨ v.z ≠ 0) : v.length ≠ 0 := by
  have hpos : 0 < v.x ^ 2 + v.y ^ 2 + v.z ^ 2 := by
    rcases h with h | h
    · have hx : 0 < v.x ^ 2 :=
        lt_of_le_of_ne (sq_nonneg _) (Ne.symm (pow_ne_zero 2 h))
      nlinarith [sq_nonneg v.y, sq_nonneg v.z]
    · have hz : 0 < v.z ^ 2 :=
        lt_of_le_of_ne (sq_nonneg _) (Ne.symm (pow_ne_zero 2 h))
      nlinarith [sq_nonneg v.x, sq_nonneg v.y]
  exact ne_of_gt (Real.sqrt_pos.mpr hpos)

/-- Normalizing a vector of non-zero magnitude yields a unit vector. -/
lemma Vector3D.length_normalize (v : Vector3D) (h : v.length ≠ 0) :
    v.normalize.length = 1 := by
  have h2 : v.length ^ 2 ≠ 0 := pow_ne_zero 2 h
  have hnum : v.x ^ 2 + v.y ^ 2 + v.z ^ 2 = v.length ^ 2 :=
    (Vector3D.sq_length v).symm
  show Real.sqrt
      ((v.x / v.length) ^ 2 + (v.y / v.length) ^ 2 + (v.z / v.length) ^ 2) = 1
  rw [div_pow, div_pow, div_pow, div_add_div_same, div_add_div_same, hnum,
    div_self h2, Real.sqrt_one]

/-- The direction accumulator never acquires a vertical component. -/
lemma moveDirection_y (s : PlayerInputState) :
    (PlayerController.moveDirection s).y = 0 := by
  obtain ⟨f, b, l, r, j, sh⟩ := s
  cases f <;> cases b <;> cases l <;> cases r <;>
    simp [PlayerController.moveDirection]

/-- The action phase issues no move command. -/
lemma move_not_mem_handleActions (pawn : Player) (s : PlayerInputState)
    (d : Vector3D) (sp t : ℝ) :
    PawnCall.move d sp t ∉ PlayerController.handleActions pawn s := by
  cases hj : s.jump <;> cases hs : s.shoot <;>
    cases hcj : pawn.canJump <;> cases hcs : pawn.canShoot <;>
      simp [PlayerController.handleActions, PlayerController.jump,
        PlayerController.shoot, hj, hs, hcj, hcs]

/-- When the direction accumulator is non-zero, the movement phase issues
the ground query followed by exactly the move command of the source. -/
lemma handleMovement_of_guard (c : PlayerController) (pawn : Player)
    (s : PlayerInputState) (dt : ℝ)
    (hg : (PlayerController.moveDirection s).x ≠ 0 ∨
      (PlayerController.moveDirection s).z ≠ 0) :
    PlayerController.handleMovement c pawn s dt =
      [PawnCall.isOnGroundQ,
       PawnCall.move (PlayerController.moveDirection s).normalize
         (if pawn.isOnGround then c.moveSpeed
          else c.moveSpeed * c.airControlModifier) dt] := by
  simp only [PlayerController.handleMovement]
  rw [if_pos hg]

/-- When the direction accumulator is zero, the movement phase touches the
pawn not at all. -/
lemma handleMovement_of_no_guard (c : PlayerController) (pawn : Player)
    (s : PlayerInputState) (dt : ℝ)
    (hg : ¬((PlayerController.moveDirection s).x ≠ 0 ∨
      (PlayerController.moveDirection s).z ≠ 0)) :
    PlayerController.handleMovement c pawn s dt = [] := by
  simp only [PlayerController.handleMovement]
  rw [if_neg hg]

/-- Inversion on a move command in an update trace: it comes from the
movement phase, so the guard held and its arguments are the normalized
accumulator, the ground-dependent speed, and the frame's dt. -/
lemma move_mem_update (c : PlayerController) (pawn : Player)
    (s : PlayerInputState) (dt : ℝ) (d : Vector3D) (sp t : ℝ)
    (h : PawnCall.move d sp t ∈ (PlayerController.update c pawn s dt).2) :
    ((PlayerController.moveDirection s).x ≠ 0 ∨
      (PlayerController.moveDirection s).z ≠ 0) ∧
    d = (PlayerController.moveDirection s).normalize ∧
    sp = (if pawn.isOnGround then c.moveSpeed
      else c.moveSpeed * c.airControlModifier) ∧
    t = dt := by
  have hna := move_not_mem_handleActions pawn s d sp t
  simp only [PlayerController.update, List.mem_append] at h
  rcases h with h | h
  · by_cases hg : (PlayerController.moveDirection s).x ≠ 0 ∨
      (PlayerController.moveDirection s).z ≠ 0
    · rw [handleMovement_of_guard c pawn s dt hg] at h
      simp only [List.mem_cons, List.mem_singleton] at h
      rcases h with h | h | h
      · exact absurd h (by simp)
      · obtain ⟨hd, hsp, ht⟩ := PawnCall.move.inj h
        exact ⟨hg, hd, hsp, ht⟩
      · exact absurd h (List.not_mem_nil _)
    · rw [handleMovement_of_no_guard c pawn s dt hg] at h
      exact absurd h (List.not_mem_nil _)
  · exact absurd h hna

/-- Interaction counts contributed by the movement phase: at most one move
command and none of the action events. -/
lemma handleMovement_counts (c : PlayerController) (pawn : Player)
    (s : PlayerInputState) (dt : ℝ) :
    (PlayerController.handleMovement c pawn s dt).countP PawnCall.isMove ≤ 1 ∧
    (PlayerController.handleMovement c pawn s dt).countP PawnCall.isCanJumpQ = 0 ∧
    (PlayerController.handleMovement c pawn s dt).countP PawnCall.isCanShootQ = 0 ∧
    (PlayerController.handleMovement c pawn s dt).countP PawnCall.isJumpCmd = 0 ∧
    (PlayerController.handleMovement c pawn s dt).countP PawnCall.isShootCmd = 0 := by
  by_cases hg : (PlayerController.moveDirection s).x ≠ 0 ∨
      (PlayerController.moveDirection s).z ≠ 0
  · rw [handleMovement_of_guard c pawn s dt hg]
    simp [List.countP_cons, PawnCall.isMove, PawnCall.isCanJumpQ,
      PawnCall.isCanShootQ, PawnCall.isJumpCmd, PawnCall.isShootCmd]
  · rw [handleMovement_of_no_guard c pawn s dt hg]
    simp
/-- Interaction counts contributed by the action phase: no move command,
one eligibility query per held action flag, at most one command each. -/
lemma handleActions_counts (pawn : Player) (s : PlayerInputState) :
    (PlayerController.handleActions pawn s).countP PawnCall.isMove = 0 ∧
    (PlayerController.handleActions pawn s).countP PawnCall.isCanJumpQ =
      (if s.jump then 1 else 0) ∧
    (PlayerController.handleActions pawn s).countP PawnCall.isCanShootQ =
      (if s.shoot then 1 else 0) ∧
    (PlayerController.handleActions pawn s).countP PawnCall.isJumpCmd ≤ 1 ∧
    (PlayerController.handleActions pawn s).countP PawnCall.isShootCmd ≤ 1 := by
  cases hj : s.jump <;> cases hs : s.shoot <;>
    cases hcj : pawn.canJump <;> cases hcs : pawn.canShoot <;>
      simp [PlayerController.handleActions, PlayerController.jump,
        PlayerController.shoot, hj, hs, hcj, hcs, List.countP_cons,
        List.countP_append, PawnCall.isMove, PawnCall.isCanJumpQ,
        PawnCall.isCanShootQ, PawnCall.isJumpCmd, PawnCall.isShootCmd]

/-! ## Claim theorems -/

/-- Claim C1: the pre-normalization direction vector equals the vector sum
of the per-axis contributions (+1 forward, −1 backward on z; +1 right, −1
left on x); opposite keys cancel to net zero on their axis; and when the
resulting vector is zero, `update` issues no move command that frame. -/
theorem update_direction_accumulation (c : PlayerController) (pawn : Player)
    (s : PlayerInputState) (dt : ℝ) :
    PlayerController.moveDirection s =
      ⟨specAxisContribution s.right s.left, 0,
       specAxisContribution s.forward s.backward⟩ ∧
    (s.forward = true → s.backward = true →
      (PlayerController.moveDirection s).z = 0) ∧
    (s.left = true → s.right = true →
      (PlayerController.moveDirection s).x = 0) ∧
    ((PlayerController.moveDirection s).x = 0 ∧
        (PlayerController.moveDirection s).z = 0 →
      ∀ d sp t, PawnCall.move d sp t ∉ (PlayerController.update c pawn s dt).2) := by
  obtain ⟨f, b, l, r, j, sh⟩ := s
  refine ⟨?_, ?_, ?_, ?_⟩
  · cases f <;> cases b <;> cases l <;> cases r <;>
      simp [PlayerController.moveDirection, specAxisContribution]
  · cases f <;> cases b <;> cases l <;> cases r <;>
      simp [PlayerController.moveDirection]
  · cases f <;> cases b <;> cases l <;> cases r <;>
      simp [PlayerController.moveDirection]
  · rintro ⟨hx, hz⟩ d sp t hmem
    rcases (move_mem_update c pawn _ dt d sp t hmem).1 with h | h
    · exact h hx
    · exact h hz

/-- Claim C1 witness: with all four directional keys held the accumulator
cancels to zero and the frame issues no move command. -/
theorem update_direction_accumulation_witness :
    PawnCall.move ⟨0, 0, 0⟩ 1 1 ∉
      (PlayerController.update defaultPlayerController ⟨true, true, true, none⟩
        ⟨true, true, true, true, false, false⟩ 1).2 :=
  (update_direction_accumulation defaultPlayerController
      ⟨true, true, true, none⟩ ⟨true, true, true, true, false, false⟩ 1).2.2.2
    (by constructor <;> norm_num [PlayerController.moveDirection]) ⟨0, 0, 0⟩ 1 1

/-- Claim C2: one `update` call returns the input state unchanged, issues
at most one move command, queries jump eligibility (a jump attempt)
exactly when the jump flag is held, likewise for shoot, and issues at most
one jump and one shoot command. -/
theorem update_once_per_frame (c : PlayerController) (pawn : Player)
    (s : PlayerInputState) (dt : ℝ) :
    (PlayerController.update c pawn s dt).1 = s ∧
    (PlayerController.update c pawn s dt).2.countP PawnCall.isMove ≤ 1 ∧
    (PlayerController.update c pawn s dt).2.countP PawnCall.isCanJumpQ =
      (if s.jump then 1 else 0) ∧
    (PlayerController.update c pawn s dt).2.countP PawnCall.isCanShootQ =
      (if s.shoot then 1 else 0) ∧
    (PlayerController.update c pawn s dt).2.countP PawnCall.isJumpCmd ≤ 1 ∧
    (PlayerController.update c pawn s dt).2.countP PawnCall.isShootCmd ≤ 1 := by
  obtain ⟨h1, h2, h3, h4, h5⟩ := handleMovement_counts c pawn s dt
  obtain ⟨g1, g2, g3, g4, g5⟩ := handleActions_counts pawn s
  have hsnd : (PlayerController.update c pawn s dt).2 =
      PlayerController.handleMovement c pawn s dt ++
        PlayerController.handleActions pawn s := rfl
  refine ⟨rfl, ?_, ?_, ?_, ?_, ?_⟩ <;> rw [hsnd, List.countP_append]
  · rw [g1]; omega
  · rw [h2, g2]; exact Nat.zero_add _
  · rw [h3, g3]; exact Nat.zero_add _
  · rw [h4]; omega
  · rw [h5]; omega

/-- Claim C3: `jump()` and `shoot()` are pure delegations: when eligible,
`jump()` commands exactly one jump and returns true, otherwise it issues
nothing and returns false; when eligible, `shoot()` commands the shot and
returns the entity's result, otherwise it issues nothing and returns the
absent result. -/
theorem jump_shoot_delegation (pawn : Player) :
    (pawn.canJump = true → PlayerController.jump pawn =
      (true, [PawnCall.canJumpQ, PawnCall.jumpCmd])) ∧
    (pawn.canJump = false → PlayerController.jump pawn =
      (false, [PawnCall.canJumpQ])) ∧
    (pawn.canShoot = true → PlayerController.shoot pawn =
      (pawn.shootResult, [PawnCall.canShootQ, PawnCall.shootCmd])) ∧
    (pawn.canShoot = false → PlayerController.shoot pawn =
      (none, [PawnCall.canShootQ])) := by
  refine ⟨fun h => ?_, fun h => ?_, fun h => ?_, fun h => ?_⟩ <;>
    simp [PlayerController.jump, PlayerController.shoot, h]

/-- Claim C3 witness: a pawn eligible to jump but not to shoot gets the
jump command with a true result, and no shot with an absent result. -/
theorem jump_shoot_delegation_witness :
    PlayerController.jump ⟨true, true, false, none⟩ =
      (true, [PawnCall.canJumpQ, PawnCall.jumpCmd]) ∧
    PlayerController.shoot ⟨true, true, false, none⟩ =
      (none, [PawnCall.canShootQ]) :=
  ⟨(jump_shoot_delegation ⟨true, true, false, none⟩).1 rfl,
   (jump_shoot_delegation ⟨true, true, false, none⟩).2.2.2 rfl⟩

/-- Claim C4: the frame's movement direction has magnitude 0 when there is
no net directional input, and magnitude exactly 1 after normalization
otherwise — diagonal input is no longer than cardinal input. -/
theorem movement_magnitude (s : PlayerInputState) :
    ((PlayerController.moveDirection s).x = 0 ∧
        (PlayerController.moveDirection s).z = 0 →
      (PlayerController.moveDirection s).length = 0) ∧
    ((PlayerController.moveDirection s).x ≠ 0 ∨
        (PlayerController.moveDirection s).z ≠ 0 →
      (PlayerController.moveDirection s).normalize.length = 1) := by
  constructor
  · rintro ⟨hx, hz⟩
    have hy := moveDirection_y s
    rw [Vector3D.length, hx, hy, hz]
    norm_num
  · intro hg
    exact Vector3D.length_normalize _ (Vector3D.length_ne_zero_of_comp _ hg)

/-- Claim C4 witness: diagonal input (forward+right) is normalized to a
unit vector. -/
theorem movement_magnitude_witness :
    (PlayerController.moveDirection
      ⟨true, false, false, true, false, false⟩).normalize.length = 1 :=
  (movement_magnitude ⟨true, false, false, true, false, false⟩).2
    (Or.inl (by norm_num [PlayerController.moveDirection]))

/-- Evaluation of one frame with only the forward flag held: the trace is
the ground query followed by the single move command. -/
lemma update_forward_eval (c : PlayerController) (pawn : Player) (dt : ℝ) :
    (PlayerController.update c pawn ⟨true, false, false, false, false, false⟩ dt).2 =
      [PawnCall.isOnGroundQ,
       PawnCall.move
         (PlayerController.moveDirection
           ⟨true, false, false, false, false, false⟩).normalize
         (if pawn.isOnGround then c.moveSpeed
          else c.moveSpeed * c.airControlModifier) dt] := by
  have hg : (PlayerController.moveDirection
      ⟨true, false, false, false, false, false⟩).z ≠ 0 := by
    norm_num [PlayerController.moveDirection]
  have hsnd : (PlayerController.update c pawn
      ⟨true, false, false, false, false, false⟩ dt).2 =
      PlayerController.handleMovement c pawn
        ⟨true, false, false, false, false, false⟩ dt ++
      PlayerController.handleActions pawn
        ⟨true, false, false, false, false, false⟩ := rfl
  rw [hsnd, handleMovement_of_guard c pawn _ dt (Or.inr hg)]
  simp [PlayerController.handleActions]

/-- Claim C5: every move command issued by `update` carries the base move
speed when the entity is grounded and the base speed times the air-control
modifier when airborne; with the source's initializers the airborne speed
is 5.0 times 0.5, that is 2.5, and the modifier is below 1. -/
theorem commanded_speed_policy (c : PlayerController) (pawn : Player)
    (s : PlayerInputState) (dt : ℝ) :
    (∀ d sp t, PawnCall.move d sp t ∈ (PlayerController.update c pawn s dt).2 →
      sp = (if pawn.isOnGround then c.moveSpeed
        else c.moveSpeed * c.airControlModifier)) ∧
    defaultPlayerController.moveSpeed = 5 ∧
    defaultPlayerController.airControlModifier = 0.5 ∧
    defaultPlayerController.airControlModifier < 1 ∧
    defaultPlayerController.moveSpeed * defaultPlayerController.airControlModifier
      = 2.5 := by
  refine ⟨fun d sp t h => (move_mem_update c pawn s dt d sp t h).2.2.1,
    ?_, ?_, ?_, ?_⟩ <;> norm_num [defaultPlayerController]

/-- Claim C5 witness: an airborne pawn with held-forward input and the
default configuration is commanded a move at speed 2.5. -/
theorem commanded_speed_policy_witness :
    (2.5 : ℝ) = (if (Player.mk false false false none).isOnGround then
      defaultPlayerController.moveSpeed
      else defaultPlayerController.moveSpeed *
        defaultPlayerController.airControlModifier) :=
  (commanded_speed_policy defaultPlayerController ⟨false, false, false, none⟩
      ⟨true, false, false, false, false, false⟩ 1).1
    (PlayerController.moveDirection
      ⟨true, false, false, false, false, false⟩).normalize 2.5 1
    (by rw [update_forward_eval]
        simp only [List.mem_cons, List.mem_singleton]
        right; left
        norm_num [defaultPlayerController])

/-- Claim C7: with dt = 0, every move command issued by `update` carries
dt = 0, so the downstream displacement speed times dt is zero. -/
theorem update_zero_dt (c : PlayerController) (pawn : Player)
    (s : PlayerInputState) :
    ∀ d sp t, PawnCall.move d sp t ∈ (PlayerController.update c pawn s 0).2 →
      t = 0 ∧ sp * t = 0 := by
  intro d sp t h
  have ht := (move_mem_update c pawn s 0 d sp t h).2.2.2
  exact ⟨ht, by rw [ht, mul_zero]⟩

/-- Claim C7 witness: a grounded pawn with held-forward input at dt = 0 is
commanded a move whose dt is 0 and whose displacement factor is 0. -/
theorem update_zero_dt_witness :
    (0 : ℝ) = 0 ∧ defaultPlayerController.moveSpeed * (0 : ℝ) = 0 :=
  update_zero_dt defaultPlayerController ⟨true, false, false, none⟩
    ⟨true, false, false, false, false, false⟩
    (PlayerController.moveDirection
      ⟨true, false, false, false, false, false⟩).normalize
    defaultPlayerController.moveSpeed 0
    (by rw [update_forward_eval]; simp)

/-- Claim C10: `update` issues a move command only when the accumulated
direction has a non-zero x or z component, and under that guard the
magnitude divided by during normalization is non-zero — normalizing a
zero-length vector is unreachable from the frame resolution. -/
theorem normalization_guard (c : PlayerController) (pawn : Player)
    (s : PlayerInputState) (dt : ℝ) :
    (∀ d sp t, PawnCall.move d sp t ∈ (PlayerController.update c pawn s dt).2 →
      (PlayerController.moveDirection s).x ≠ 0 ∨
        (PlayerController.moveDirection s).z ≠ 0) ∧
    ((PlayerController.moveDirection s).x ≠ 0 ∨
        (PlayerController.moveDirection s).z ≠ 0 →
      (PlayerController.moveDirection s).length ≠ 0) :=
  ⟨fun d sp t h => (move_mem_update c pawn s dt d sp t h).1,
   fun hg => Vector3D.length_ne_zero_of_comp _ hg⟩

/-- Claim C10 witness: with only the left flag held the accumulated
direction has non-zero magnitude, so its normalization divisor is
non-zero. -/
theorem normalization_guard_witness :
    (PlayerController.moveDirection
      ⟨false, false, true, false, false, false⟩).length ≠ 0 :=
  (normalization_guard defaultPlayerController ⟨true, true, true, none⟩
      ⟨false, false, true, false, false, false⟩ 1).2
    (Or.inl (by norm_num [PlayerController.moveDirection]))

/-- An unrecognized key code falls through every case of the key-down
switch, leaving the state unchanged. -/
lemma onKeyDown_unrecognized (code : String)
    (h : code ∉ PlayerController.recognizedKeyCodes) (s : PlayerInputState) :
    PlayerController.onKeyDown code s = s := by
  simp only [PlayerController.recognizedKeyCodes, List.mem_cons,
    List.mem_singleton, not_or] at h
  obtain ⟨n1, n2, n3, n4, n5, n6, n7, n8, n9, n10, n11⟩ := h
  simp [PlayerController.onKeyDown, n1, n2, n3, n4, n5, n6, n7, n8, n9, n10, n11]

/-- An unrecognized key code falls through every case of the key-up
switch, leaving the state unchanged. -/
lemma onKeyUp_unrecognized (code : String)
    (h : code ∉ PlayerController.recognizedKeyCodes) (s : PlayerInputState) :
    PlayerController.onKeyUp code s = s := by
  simp only [PlayerController.recognizedKeyCodes, List.mem_cons,
    List.mem_singleton, not_or] at h
  obtain ⟨n1, n2, n3, n4, n5, n6, n7, n8, n9, n10, n11⟩ := h
  simp [PlayerController.onKeyUp, n1, n2, n3, n4, n5, n6, n7, n8, n9, n10, n11]

/-- Repeated key-down events for the same code are no-ops in effect. -/
lemma onKeyDown_idem (code : String) (s : PlayerInputState) :
    PlayerController.onKeyDown code (PlayerController.onKeyDown code s) =
      PlayerController.onKeyDown code s := by
  simp only [PlayerController.onKeyDown]
  split_ifs <;> rfl

/-- Repeated key-up events for the same code are no-ops in effect. -/
lemma onKeyUp_idem (code : String) (s : PlayerInputState) :
    PlayerController.onKeyUp code (PlayerController.onKeyUp code s) =
      PlayerController.onKeyUp code s := by
  simp only [PlayerController.onKeyUp]
  split_ifs <;> rfl

/-- Claim C6: each key event sets or clears exactly the one flag bound to
its key code in the fixed mapping, unconditionally and idempotently;
unrecognized codes leave the whole state unchanged; and a down/up pair on
one key returns its flag to false leaving every other flag unaffected. -/
theorem key_mapping (s : PlayerInputState) :
    (∀ code, code ∉ PlayerController.recognizedKeyCodes →
      PlayerController.onKeyDown code s = s ∧
      PlayerController.onKeyUp code s = s) ∧
    (∀ code, PlayerController.onKeyDown code (PlayerController.onKeyDown code s) =
        PlayerController.onKeyDown code s ∧
      PlayerController.onKeyUp code (PlayerController.onKeyUp code s) =
        PlayerController.onKeyUp code s) ∧
    PlayerController.onKeyDown "KeyW" s = { s with forward := true } ∧
    PlayerController.onKeyDown "ArrowUp" s = { s with forward := true } ∧
    PlayerController.onKeyDown "KeyS" s = { s with backward := true } ∧
    PlayerController.onKeyDown "ArrowDown" s = { s with backward := true } ∧
    PlayerController.onKeyDown "KeyA" s = { s with left := true } ∧
    PlayerController.onKeyDown "ArrowLeft" s = { s with left := true } ∧
    PlayerController.onKeyDown "KeyD" s = { s with right := true } ∧
    PlayerController.onKeyDown "ArrowRight" s = { s with right := true } ∧
    PlayerController.onKeyDown "Space" s = { s with jump := true } ∧
    PlayerController.onKeyDown "Mouse0" s = { s with shoot := true } ∧
    PlayerController.onKeyDown "Enter" s = { s with shoot := true } ∧
    PlayerController.onKeyUp "KeyW" s = { s with forward := false } ∧
    PlayerController.onKeyUp "ArrowUp" s = { s with forward := false } ∧
    PlayerController.onKeyUp "KeyS" s = { s with backward := false } ∧
    PlayerController.onKeyUp "ArrowDown" s = { s with backward := false } ∧
    PlayerController.onKeyUp "KeyA" s = { s with left := false } ∧
    PlayerController.onKeyUp "ArrowLeft" s = { s with left := false } ∧
    PlayerController.onKeyUp "KeyD" s = { s with right := false } ∧
    PlayerController.onKeyUp "ArrowRight" s = { s with right := false } ∧
    PlayerController.onKeyUp "Space" s = { s with jump := false } ∧
    PlayerController.onKeyUp "Mouse0" s = { s with shoot := false } ∧
    PlayerController.onKeyUp "Enter" s = { s with shoot := false } ∧
    PlayerController.onKeyUp "KeyW" (PlayerController.onKeyDown "KeyW" s) =
      { s with forward := false } := by
  refine ⟨fun code h => ⟨onKeyDown_unrecognized code h s,
      onKeyUp_unrecognized code h s⟩,
    fun code => ⟨onKeyDown_idem code s, onKeyUp_idem code s⟩,
    ?_, ?_, ?_, ?_, ?_, ?_, ?_, ?_, ?_, ?_, ?_, ?_, ?_, ?_, ?_, ?_, ?_, ?_,
    ?_, ?_, ?_, ?_, ?_⟩ <;>
    simp [PlayerController.onKeyDown, PlayerController.onKeyUp]

/-- Claim C6 witness: an unbound key code is silently ignored by both
handlers at a concrete state. -/
theorem key_mapping_witness :
    PlayerController.onKeyDown "NumpadEnter" initialInputState =
      initialInputState ∧
    PlayerController.onKeyUp "NumpadEnter" initialInputState =
      initialInputState :=
  (key_mapping initialInputState).1 "NumpadEnter" (by decide)

/-- Claim C8: the manual-override setters each set exactly their own held
flag to true and leave the five other flags untouched; in particular they
never clear a flag. -/
theorem manual_setters_latch (s : PlayerInputState) :
    (PlayerController.moveForward s).forward = true ∧
    (PlayerController.moveForward s).backward = s.backward ∧
    (PlayerController.moveForward s).left = s.left ∧
    (PlayerController.moveForward s).right = s.right ∧
    (PlayerController.moveForward s).jump = s.jump ∧
    (PlayerController.moveForward s).shoot = s.shoot ∧
    (PlayerController.moveBackward s).backward = true ∧
    (PlayerController.moveBackward s).forward = s.forward ∧
    (PlayerController.moveBackward s).left = s.left ∧
    (PlayerController.moveBackward s).right = s.right ∧
    (PlayerController.moveBackward s).jump = s.jump ∧
    (PlayerController.moveBackward s).shoot = s.shoot ∧
    (PlayerController.moveLeft s).left = true ∧
    (PlayerController.moveLeft s).forward = s.forward ∧
    (PlayerController.moveLeft s).backward = s.backward ∧
    (PlayerController.moveLeft s).right = s.right ∧
    (PlayerController.moveLeft s).jump = s.jump ∧
    (PlayerController.moveLeft s).shoot = s.shoot ∧
    (PlayerController.moveRight s).right = true ∧
    (PlayerController.moveRight s).forward = s.forward ∧
    (PlayerController.moveRight s).backward = s.backward ∧
    (PlayerController.moveRight s).left = s.left ∧
    (PlayerController.moveRight s).jump = s.jump ∧
    (PlayerController.moveRight s).shoot = s.shoot :=
  ⟨rfl, rfl, rfl, rfl, rfl, rfl, rfl, rfl, rfl, rfl, rfl, rfl,
   rfl, rfl, rfl, rfl, rfl, rfl, rfl, rfl, rfl, rfl, rfl, rfl⟩

/-- Claim C9: after `destroy()` the listeners are detached, so a
subsequent key-down or key-up event leaves the controller's state
unchanged, and a frame update after destroy behaves exactly as if the
post-destroy key event had never arrived. -/
theorem destroy_detaches_listeners (st : ControllerState) (code : String)
    (c : PlayerController) (pawn : Player) (dt : ℝ) :
    ControllerState.deliverKeyDown code st.destroy = st.destroy ∧
    ControllerState.deliverKeyUp code st.destroy = st.destroy ∧
    PlayerController.update c pawn
        (ControllerState.deliverKeyDown code st.destroy).input dt =
      PlayerController.update c pawn st.destroy.input dt := by
  refine ⟨?_, ?_, ?_⟩ <;>
    simp [ControllerState.destroy, ControllerState.stopListening,
      ControllerState.deliverKeyDown, ControllerState.deliverKeyUp]
